import Mathlib

/-!
Verification of the Ethos retrieval pipeline against its specification.

The Python sources are embedded shallowly:
* `src/utils.py`            → text cleaning, confidence scoring, truncation
* `src/message_processor.py`→ thread grouping and document creation
* `src/retry_handler.py`    → retry-with-backoff and the circuit breaker
* `src/vector_store.py`     → index build / load / similarity search
* `src/rag_engine.py`       → the answer orchestrator `ask`

Machine floats in the sources are modelled as rationals (`ℚ`); dictionaries
with optional keys become structures with `Option` fields; functions that can
raise return `Except`.  External effects (the embedding model, the FAISS
nearest-neighbour kernel, the LLM, the clock, the file system) are modelled by
explicit parameters: a list of per-vector distances for a fixed query stands
for the stored embedding vectors, and an outcome function stands for the
wrapped fallible callable.
-/

/-! ## utils.py -/

/-- Python's `\s` character class, restricted to the ASCII whitespace that can
appear in chat text: space, tab, newline, carriage return, vertical tab and
form feed. -/
def pyIsSpace (c : Char) : Bool :=
  c = ' ' ∨ c = '\t' ∨ c = '\n' ∨ c = '\r' ∨ c = '\x0b' ∨ c = '\x0c'

/-- `str.strip()`: drop leading and trailing whitespace. -/
def pyStrip (l : List Char) : List Char :=
  ((l.dropWhile pyIsSpace).reverse.dropWhile pyIsSpace).reverse

/-- The character class `[A-Z0-9]` used by the mention patterns. -/
def isUpperDigit (c : Char) : Bool :=
  ('A' ≤ c ∧ c ≤ 'Z') ∨ ('0' ≤ c ∧ c ≤ '9')

/-- One left-to-right, non-overlapping `re.sub` pass.  `step` tries to match a
pattern at the head of the list and, on success, returns the replacement text
together with the input after the match (which every pattern makes strictly
shorter).  On failure the scanner keeps one character and advances.  The fuel
is initialised with the length of the input, which bounds the number of
steps. -/
def scanRe (step : List Char → Option (List Char × List Char)) :
    ℕ → List Char → List Char
  | 0, l => l
  | _ + 1, [] => []
  | fuel + 1, c :: rest =>
    match step (c :: rest) with
    | some (repl, tail) => repl ++ scanRe step fuel tail
    | none => c :: scanRe step fuel rest

/-- Match `<@[A-Z0-9]+>` at the head; replaced by the empty string. -/
def stepUserMention : List Char → Option (List Char × List Char)
  | '<' :: '@' :: rest =>
    match rest.takeWhile isUpperDigit, rest.dropWhile isUpperDigit with
    | _ :: _, '>' :: tail => some ([], tail)
    | _, _ => none
  | _ => none

/-- Match `<#[A-Z0-9]+\|([^>]+)>` at the head; replaced by the captured
label. -/
def stepChannelMention : List Char → Option (List Char × List Char)
  | '<' :: '#' :: rest =>
    match rest.takeWhile isUpperDigit, rest.dropWhile isUpperDigit with
    | _ :: _, '|' :: r2 =>
      match r2.takeWhile (fun c => ¬ c = '>'), r2.dropWhile (fun c => ¬ c = '>') with
      | label@(_ :: _), '>' :: tail => some (label, tail)
      | _, _ => none
    | _, _ => none
  | _ => none

/-- Match `<(https?://[^|>]+)(?:\|[^>]+)?>` at the head; replaced by the
captured url. -/
def stepLink : List Char → Option (List Char × List Char)
  | '<' :: rest =>
    let afterScheme : Option (List Char × List Char) :=
      if (['h', 't', 't', 'p', 's', ':', '/', '/'] : List Char).isPrefixOf rest then
        some (['h', 't', 't', 'p', 's', ':', '/', '/'], rest.drop 8)
      else if (['h', 't', 't', 'p', ':', '/', '/'] : List Char).isPrefixOf rest then
        some (['h', 't', 't', 'p', ':', '/', '/'], rest.drop 7)
      else none
    match afterScheme with
    | none => none
    | some (scheme, r1) =>
      match r1.takeWhile (fun c => ¬ (c = '|' ∨ c = '>')),
            r1.dropWhile (fun c => ¬ (c = '|' ∨ c = '>')) with
      | url@(_ :: _), '>' :: tail => some (scheme ++ url, tail)
      | url@(_ :: _), '|' :: r2 =>
        match r2.takeWhile (fun c => ¬ c = '>'), r2.dropWhile (fun c => ¬ c = '>') with
        | _ :: _, '>' :: tail => some (scheme ++ url, tail)
        | _, _ => none
      | _, _ => none
  | _ => none

/-- Match a maximal whitespace run `\s+`; replaced by a single space. -/
def stepWhitespace : List Char → Option (List Char × List Char)
  | c :: rest =>
    if pyIsSpace c then some ([' '], rest.dropWhile pyIsSpace) else none
  | [] => none

/-- `clean_slack_text` (utils.py): strip user mentions, rewrite channel
mentions to their label, rewrite `<url|label>` links to the bare url, collapse
whitespace runs to one space, and trim. -/
def clean_slack_text (text : String) : String :=
  if text = "" then ""
  else
    let l1 := scanRe stepUserMention text.data.length text.data
    let l2 := scanRe stepChannelMention l1.length l1
    let l3 := scanRe stepLink l2.length l2
    let l4 := scanRe stepWhitespace l3.length l3
    String.mk (pyStrip l4)

/-- `format_confidence_indicator` (utils.py). -/
def format_confidence_indicator (confidence : ℚ) : String :=
  if 8/10 ≤ confidence then "✅ High confidence answer"
  else if 5/10 ≤ confidence then "⚠️ Moderate confidence - verify if critical"
  else "⚠️ Low confidence - information may be incomplete"

/-- Python `text[:max_length].rsplit(' ', 1)[0]`: everything before the last
space of the truncated text, or the whole truncated text when it holds no
space. -/
def dropAfterLastSpace (l : List Char) : List Char :=
  match l.reverse.dropWhile (fun c => ¬ c = ' ') with
  | [] => l
  | _ :: before => before.reverse

/-- `truncate_text` (utils.py): texts within the limit are unchanged;
longer texts are cut at `max_length`, trimmed back to the last word boundary
and suffixed with an ellipsis. -/
def truncate_text (text : String) (max_length : ℕ) : String :=
  if text.length ≤ max_length then text
  else String.mk (dropAfterLastSpace (text.data.take max_length)) ++ "..."

/-- Python `min(a, b)`: the second argument only when it is strictly
smaller. -/
def pyMin (a b : ℚ) : ℚ := if b < a then b else a

/-- Python `max(a, b)`: the second argument only when it is strictly
larger. -/
def pyMax (a b : ℚ) : ℚ := if a < b then b else a

/-- `calculate_confidence` (utils.py): `0` when there are no distances or no
results; otherwise the clamp of `1 - distances[0]/10` into `[0, 1]`, boosted
by `1.2` and re-clamped to `1` when at least three distances exist and the
first three are all below `1.5`. -/
def calculate_confidence (distances : List ℚ) (num_results : ℕ) : ℚ :=
  match distances with
  | [] => 0
  | first_distance :: _ =>
    if num_results = 0 then 0
    else
      let confidence := pyMax 0 (pyMin 1 (1 - first_distance / 10))
      if 3 ≤ distances.length ∧ ∀ d ∈ distances.take 3, d < 3/2 then
        pyMin 1 (confidence * (6/5))
      else
        confidence

example : clean_slack_text "<@U123456> check this out" = "check this out" := by decide
example : clean_slack_text "See <#C123|general> channel" = "See general channel" := by decide
example : clean_slack_text "Visit <https://example.com|example>" = "Visit https://example.com" := by decide
example : calculate_confidence [1/10, 2/10, 3/10] 3 = 1 := by
  norm_num [calculate_confidence, pyMin, pyMax]
example : calculate_confidence [99/10] 1 = 1/100 := by
  norm_num [calculate_confidence, pyMin, pyMax]

/-! ## message_processor.py

A raw Slack message is a JSON dictionary; the keys `create_documents` reads
become `Option` fields (`none` = key absent).  `is_thread_reply` covers the
truthiness test `msg.get('is_thread_reply')` and `reply_count` the numeric
default `msg.get('reply_count', 0)`. -/

structure Msg where
  text : String := ""
  user : Option String := none
  user_name : Option String := none
  ts : Option String := none
  thread_ts : Option String := none
  is_thread_reply : Bool := false
  parent_ts : Option String := none
  reply_count : ℕ := 0
  channel : Option String := none
  msgType : Option String := none
  subtype : Option String := none
deriving DecidableEq

/-- `msg.get('user_name', msg.get('user', 'Unknown'))`. -/
def userNameOf (m : Msg) : String :=
  match m.user_name with
  | some s => s
  | none => m.user.getD "Unknown"

/-- The metadata dictionary built by `extract_message_metadata` (utils.py).
`formatted_time` — the local-timezone rendering of the float timestamp via
`datetime.fromtimestamp` — is environment-dependent and is omitted from the
model.  `is_thread` and `reply_count` are absent for standalone documents and
written only by the thread branch of `create_documents`. -/
structure DocMeta where
  user : String
  user_id : String
  timestamp : String
  channel : String
  thread_ts : String
  message_type : String
  subtype : String
  is_thread : Bool := false
  reply_count : Option ℕ := none
deriving DecidableEq

/-- `extract_message_metadata` (utils.py).  The `user_name` argument is the
string passed by `create_documents`; Python falls back to
`message.get('user', 'Unknown')` when it is falsy (empty). -/
def extract_message_metadata (message : Msg) (user_name : String) : DocMeta :=
  { user := if user_name = "" then message.user.getD "Unknown" else user_name
    user_id := message.user.getD "Unknown"
    timestamp := message.ts.getD ""
    channel := message.channel.getD "Unknown"
    thread_ts := message.thread_ts.getD ""
    message_type := message.msgType.getD "message"
    subtype := message.subtype.getD "normal" }

/-- A LangChain `Document`: page content plus metadata. -/
structure Document where
  page_content : String
  metadata : DocMeta
deriving DecidableEq

/-- Keys of the `thread_groups` dictionary: Python timestamp strings, or
`None` when the message lacks the key (`none` here). -/
abbrev GroupKey := Option String

/-- Python `a or b` on two optional strings: the first operand unless it is
falsy (`None` or empty). -/
def pyOr (a b : Option String) : Option String :=
  match a with
  | some s => if s = "" then b else some s
  | none => b

/-- The grouping key of a parent message: `msg.get('thread_ts') or
msg.get('ts')`. -/
def parentKeyOf (m : Msg) : GroupKey := pyOr m.thread_ts m.ts

/-- The dictionary update `thread_groups.setdefault(key, [])` followed by
`f` applied to the bucket: the first entry with the key is updated in place,
and a missing key is appended at the end (Python dicts preserve insertion
order). -/
def updateKey (gs : List (GroupKey × List Msg)) (k : GroupKey)
    (f : List Msg → List Msg) : List (GroupKey × List Msg) :=
  match gs with
  | [] => [(k, f [])]
  | (k', l) :: rest => if k' = k then (k', f l) :: rest else (k', l) :: updateKey rest k f

/-- Dictionary lookup on the ordered association list. -/
def lookupGroup (k : GroupKey) : List (GroupKey × List Msg) → Option (List Msg)
  | [] => none
  | (k', l) :: rest => if k' = k then some l else lookupGroup k rest

/-- The single pass of `create_documents` over the messages: replies are
appended to the group keyed by their `parent_ts`, parents (positive
`reply_count`, not replies) are inserted at position 0 of the group keyed by
`thread_ts or ts`, and everything else is standalone. -/
def groupLoop : List Msg → List (GroupKey × List Msg) → List Msg →
    List (GroupKey × List Msg) × List Msg
  | [], gs, ss => (gs, ss)
  | m :: rest, gs, ss =>
    if m.is_thread_reply then
      groupLoop rest (updateKey gs m.parent_ts (fun l => l ++ [m])) ss
    else if 0 < m.reply_count then
      groupLoop rest (updateKey gs (parentKeyOf m) (fun l => m :: l)) ss
    else
      groupLoop rest gs (ss ++ [m])

/-- The standalone branch of `create_documents`: clean the text, drop the
message when the cleaned text is empty, otherwise emit a document with the
extracted metadata. -/
def mkStandaloneDoc (m : Msg) : Option Document :=
  let text := clean_slack_text m.text
  if text = "" then none
  else some { page_content := text, metadata := extract_message_metadata m (userNameOf m) }

/-- The thread branch of `create_documents` for one group, in list order:
index 0 is the parent and gets the `**Thread started by …:**` part, later
members get `**Reply by …:**` parts; members whose cleaned text is empty are
skipped.  When the group is empty, or the index-0 text cleans to empty
(leaving `parent_msg` unset), the whole group is skipped.  The metadata comes
from the parent, with `is_thread = true` and `reply_count = size - 1`. -/
def renderGroup (thread_messages : List Msg) : Option Document :=
  match thread_messages with
  | [] => none
  | parent :: replies =>
    let ptext := clean_slack_text parent.text
    if ptext = "" then none
    else
      let parts := ("**Thread started by " ++ userNameOf parent ++ ":**\n" ++ ptext) ::
        replies.filterMap (fun m =>
          if clean_slack_text m.text = "" then none
          else some ("\n**Reply by " ++ userNameOf m ++ ":**\n" ++ clean_slack_text m.text))
      some { page_content := String.intercalate "\n" parts
             metadata := { extract_message_metadata parent (userNameOf parent) with
                           is_thread := true
                           reply_count := some (thread_messages.length - 1) } }

/-- `MessageProcessor.create_documents`: group the messages, emit standalone
documents first (in arrival order), then one compound document per thread
group (in key insertion order). -/
def create_documents (messages : List Msg) : List Document :=
  let grouped := groupLoop messages [] []
  grouped.2.filterMap mkStandaloneDoc ++ grouped.1.filterMap (fun g => renderGroup g.2)

/-- Which group, if any, a message contributes to in the grouping pass. -/
def contribKey (m : Msg) : Option GroupKey :=
  if m.is_thread_reply then some m.parent_ts
  else if 0 < m.reply_count then some (parentKeyOf m)
  else none

/-- The effect of one contributing message on its group's bucket: replies
append, parents prepend (both create the bucket when absent). -/
def applyContrib (o : Option (List Msg)) (m : Msg) : Option (List Msg) :=
  if m.is_thread_reply then some (o.getD [] ++ [m]) else some (m :: o.getD [])

/-! ## retry_handler.py

The wrapped callable is modelled by an outcome per attempt: it returns a
value, raises an exception in the retry allow-list, or raises anything else.
The observer calls are collected in order; the sleeps between attempts are
not observable in the result. -/

inductive FnOutcome (α ε : Type) where
  | ok (v : α)
  | retryable (e : ε)
  | nonRetryable (e : ε)
deriving DecidableEq

inductive RetryResult (α ε : Type) where
  /-- `return func(*args, **kwargs)` succeeded on some attempt. -/
  | success (v : α)
  /-- all attempts failed with allow-listed exceptions; `raise last_exception`
  re-raises the last one. -/
  | raised (e : ε)
  /-- an exception outside the allow-list escaped the `except` clause on first
  occurrence. -/
  | propagated (e : ε)
  /-- `max_retries = 0`: the loop body never runs and `raise last_exception`
  raises `None` (a `TypeError` in Python). -/
  | raisedNone
deriving DecidableEq

/-- The loop body of the wrapper returned by `retry_on_error`
(retry_handler.py, lines 114-144).  `calls` records the `(exception,
attempt)` pairs passed to the `on_retry` callback, which fires before each
sleep and never on the final attempt. -/
def retryLoop (outcomes : ℕ → FnOutcome α ε) (maxRetries : ℕ) (attempt : ℕ)
    (lastExc : Option ε) (calls : List (ε × ℕ)) : RetryResult α ε × List (ε × ℕ) :=
  if attempt < maxRetries then
    match outcomes attempt with
    | .ok v => (.success v, calls)
    | .nonRetryable e => (.propagated e, calls)
    | .retryable e =>
      if attempt < maxRetries - 1 then
        retryLoop outcomes maxRetries (attempt + 1) (some e) (calls ++ [(e, attempt)])
      else
        (.raised e, calls)
  else
    match lastExc with
    | some e => (.raised e, calls)
    | none => (.raisedNone, calls)
termination_by maxRetries - attempt
decreasing_by omega

/-- A call through the `retry_on_error(config, exceptions, on_retry)` wrapper
with `config.max_retries = maxRetries`. -/
def retryRun (maxRetries : ℕ) (outcomes : ℕ → FnOutcome α ε) :
    RetryResult α ε × List (ε × ℕ) :=
  retryLoop outcomes maxRetries 0 none []

/-- The `self.state` strings of `CircuitBreaker`: `'closed'`, `'open'`,
`'half_open'`. -/
inductive CBState where
  | closed
  | opened
  | halfOpen
deriving DecidableEq

/-- `CircuitBreaker.__init__` state (retry_handler.py, lines 258-278), with
the wall clock as `ℚ`. -/
structure CircuitBreaker where
  failure_threshold : ℕ
  recovery_timeout : ℚ
  failure_count : ℕ
  last_failure_time : Option ℚ
  state : CBState
deriving DecidableEq

def CircuitBreaker.init (failure_threshold : ℕ) (recovery_timeout : ℚ) : CircuitBreaker :=
  { failure_threshold := failure_threshold
    recovery_timeout := recovery_timeout
    failure_count := 0
    last_failure_time := none
    state := .closed }

/-- The wrapped function's behaviour on the one invocation a call makes:
return a value, raise the monitored `expected_exception`, or raise anything
else. -/
inductive CallOutcome (α ε : Type) where
  | ok (v : α)
  | failExpected (e : ε)
  | failOther (e : ε)
deriving DecidableEq

inductive CBCallResult (α ε : Type) where
  /-- the wrapped function was invoked and its value returned. -/
  | value (v : α)
  /-- `Exception("Circuit breaker is OPEN - service unavailable")` was raised
  without invoking the wrapped function. -/
  | rejectedOpen
  /-- the wrapped function was invoked; its monitored exception was counted
  and re-raised. -/
  | raisedExpected (e : ε)
  /-- the wrapped function was invoked; an unmonitored exception escaped
  untouched. -/
  | raisedOther (e : ε)
deriving DecidableEq

/-- `CircuitBreaker.call` (retry_handler.py, lines 280-322), with
`time.time()` passed in as `now`.  An open breaker whose recovery timeout has
not yet elapsed rejects the call outright; otherwise the state moves to
half-open and the call proceeds.  Success in half-open closes the breaker and
resets the counter; a monitored failure increments the counter, records the
failure time, and opens the breaker once the threshold is reached. -/
def CircuitBreaker.call (cb : CircuitBreaker) (now : ℚ) (outcome : CallOutcome α ε) :
    CircuitBreaker × CBCallResult α ε :=
  let gate : Option CircuitBreaker :=
    if cb.state = .opened then
      if cb.recovery_timeout ≤ now - (cb.last_failure_time.getD 0) then
        some { cb with state := .halfOpen }
      else none
    else some cb
  match gate with
  | none => (cb, .rejectedOpen)
  | some cb1 =>
    match outcome with
    | .ok v =>
      if cb1.state = .halfOpen then
        ({ cb1 with state := .closed, failure_count := 0 }, .value v)
      else
        (cb1, .value v)
    | .failExpected e =>
      let cb2 := { cb1 with failure_count := cb1.failure_count + 1
                            last_failure_time := some now }
      if cb1.failure_threshold ≤ cb2.failure_count then
        ({ cb2 with state := .opened }, .raisedExpected e)
      else
        (cb2, .raisedExpected e)
    | .failOther e => (cb1, .raisedOther e)

/-! ## vector_store.py

The stored embedding vectors are abstracted, for one fixed query, by the list
of L2 distances between the query's embedding and each stored vector, in
insertion order (`none` = no index built).  The FAISS `IndexFlatL2.search`
kernel then returns the `search_k` lowest-distance entries in ascending
order. -/

/-- Python `str.lower()` (the sources only filter ASCII channel names). -/
def pyLower (l : List Char) : List Char := l.map Char.toLower

/-- Python's substring test `needle in hay`. -/
def listContainsSub (hay needle : List Char) : Bool :=
  match hay with
  | [] => needle.isEmpty
  | c :: t => needle.isPrefixOf (c :: t) || listContainsSub t needle

/-- Insert a `(distance, index)` candidate behind every strictly smaller or
equal distance: insertion keeps ties in insertion order. -/
def insertByDist (x : ℚ × ℕ) : List (ℚ × ℕ) → List (ℚ × ℕ)
  | [] => [x]
  | y :: t => if x.1 < y.1 then x :: y :: t else y :: insertByDist x t

/-- Stable sort of the candidates by ascending distance. -/
def sortByDist : List (ℚ × ℕ) → List (ℚ × ℕ)
  | [] => []
  | x :: t => insertByDist x (sortByDist t)

/-- The metadata dictionary fields the vector store reads (`metadata.get`
with defaults); `none` = key absent.  Documents produced by
`extract_message_metadata` carry no `channel_name` key, but the store only
ever reads it with a default. -/
structure VSMeta where
  channel_name : Option String := none
  user : Option String := none
  formatted_time : Option String := none
  channel : Option String := none
deriving DecidableEq

/-- One entry of the list returned by `VectorStore.search`. -/
structure SearchHit where
  document : String
  metadata : VSMeta
  score : ℚ
  rank : ℕ
deriving DecidableEq

structure VectorStore where
  model_name : String := "sentence-transformers/all-MiniLM-L6-v2"
  dimension : ℕ := 384
  index : Option (List ℚ) := none
  documents : List String := []
  metadata : List VSMeta := []
deriving DecidableEq

/-- `ValueError("No index exists")` from `search` before build/restore. -/
inductive VSError where
  | noIndex
deriving DecidableEq

/-- The FAISS nearest-neighbour call `index.search(query_embedding, k)`:
all stored vectors ranked by ascending distance (ties kept in insertion
order), truncated to `k`, returned as (distance, index) pairs. -/
def faissSearch (dists : List ℚ) (k : ℕ) : List (ℚ × ℕ) :=
  (sortByDist (dists.enum.map (fun p => (p.2, p.1)))).take k

/-- The channel filter test: skipped entirely when `channel_filter` is falsy
(`None` or empty), otherwise a case-insensitive substring test against
`metadata.get('channel_name', '')`. -/
def passesFilter (channel_filter : Option String) (m : VSMeta) : Bool :=
  match channel_filter with
  | none => true
  | some f =>
    if f = "" then true
    else listContainsSub (pyLower (m.channel_name.getD "").data) (pyLower f.data)

/-- The result-formatting loop of `VectorStore.search` (vector_store.py,
lines 212-232): walk the candidates in order, skip out-of-range indices and
filtered-out channels, assign `rank = len(results) + 1` on append, and stop
as soon as `k` results are collected.  The store's `documents` and `metadata`
lists are parallel (both are built from the same document list), so the
metadata access is total. -/
def formatLoop (vs : VectorStore) (k : ℕ) (channel_filter : Option String) :
    List (ℚ × ℕ) → List SearchHit → List SearchHit
  | [], acc => acc
  | (distance, idx) :: rest, acc =>
    if h : idx < vs.documents.length then
      let m := vs.metadata.getD idx {}
      if passesFilter channel_filter m then
        let acc2 := acc ++ [{ document := vs.documents.get ⟨idx, h⟩, metadata := m
                              score := distance, rank := acc.length + 1 }]
        if k ≤ acc2.length then acc2 else formatLoop vs k channel_filter rest acc2
      else formatLoop vs k channel_filter rest acc
    else formatLoop vs k channel_filter rest acc

/-- `VectorStore.search` (vector_store.py, lines 180-238).  No index raises
`ValueError`; a blank query returns the empty list; with a truthy channel
filter the FAISS call over-fetches `3 × k` candidates, capped at the index
size. -/
def VectorStore.search (vs : VectorStore) (query : String) (k : ℕ)
    (channel_filter : Option String) : Except VSError (List SearchHit) :=
  match vs.index with
  | none => .error .noIndex
  | some dists =>
    if pyStrip query.data = [] then .ok []
    else
      let filtering := match channel_filter with
        | none => false
        | some f => decide (¬ f = "")
      let search_k := if filtering then k * 3 else k
      let search_k := min search_k dists.length
      .ok (formatLoop vs k channel_filter (faissSearch dists search_k) [])

/-- `VectorStore.create_index` (vector_store.py, lines 38-74).  `documents`
pairs each chunk's text with its metadata; `vecs` stands for the embedding
vectors the model returns for them, abstracted as distances to the fixed
query under consideration.  An empty document list only logs a warning and
returns, leaving the store untouched — no exception is raised. -/
def VectorStore.create_index (vs : VectorStore) (documents : List (String × VSMeta))
    (vecs : List ℚ) : VectorStore :=
  if documents.isEmpty then vs
  else { vs with index := some vecs
                 documents := documents.map Prod.fst
                 metadata := documents.map Prod.snd }

/-- The pickled `documents.pkl` payload saved by `save_index`: documents,
parallel metadata, the embedding model identifier and the vector
dimension. -/
structure DocsFile where
  documents : List String
  metadata : List VSMeta
  model_name : Option String := none
  dimension : Option ℕ := none
deriving DecidableEq

/-- `FileNotFoundError` raised for whichever artifact is missing. -/
inductive LoadError where
  | indexFileNotFound
  | documentsFileNotFound
deriving DecidableEq

/-- `VectorStore.load_index` (vector_store.py, lines 131-178), with the file
system abstracted by the two optional artifacts.  Both must exist; the saved
model name is compared against the configured one only to log a warning (the
returned flag); the saved dimension is never inspected. -/
def VectorStore.load_index (vs : VectorStore) (fsIndex : Option (List ℚ))
    (fsDocs : Option DocsFile) : Except LoadError (VectorStore × Bool) :=
  match fsIndex with
  | none => .error .indexFileNotFound
  | some vecs =>
    match fsDocs with
    | none => .error .documentsFileNotFound
    | some data =>
      let saved_model := data.model_name.getD vs.model_name
      .ok ({ vs with index := some vecs
                     documents := data.documents
                     metadata := data.metadata },
           decide (¬ saved_model = vs.model_name))

/-! ## rag_engine.py

`RAGEngine.ask` is modelled over two effect parameters: the retrieval call's
outcome (a result list, or the message of whatever exception
`vector_store.search` raised) and the chat-completion call's outcome per
attempt.  `RateLimitError` is a subclass of `APIError` in the OpenAI client,
so the inner `except RateLimitError` clause must and does come first; the
`exc` constructor covers every exception that is neither. -/

inductive LLMOutcome where
  | ok (answer : String)
  | rateLimited
  | apiErr (msg : String)
  | exc (msg : String)
deriving DecidableEq

/-- How the inner completion loop of `ask` (rag_engine.py, lines 172-217)
terminates. -/
inductive LLMLoopResult where
  /-- `break` after a successful completion; `answer` is bound. -/
  | answered (a : String)
  /-- rate limit on the final attempt: `return` the dedicated rate-limit
  payload from inside the loop. -/
  | returnedRateLimit
  /-- `APIError` on the final attempt: `raise` re-raises it. -/
  | raisedAPI (msg : String)
  /-- any other exception in the loop body propagates at once. -/
  | raisedExc (msg : String)
  /-- the loop ran zero iterations, so the later read of `answer` raises
  `NameError`; unreachable with the hard-coded `max_retries = 3`. -/
  | fellThrough
deriving DecidableEq

/-- The completion retry loop: 0-indexed attempts up to `maxRetries`, with a
sleep (not observable here) before every non-final retry. -/
def askLLMLoop (llm : ℕ → LLMOutcome) (maxRetries : ℕ) (attempt : ℕ) : LLMLoopResult :=
  if attempt < maxRetries then
    match llm attempt with
    | .ok a => .answered a
    | .rateLimited =>
      if attempt < maxRetries - 1 then askLLMLoop llm maxRetries (attempt + 1)
      else .returnedRateLimit
    | .apiErr m =>
      if attempt < maxRetries - 1 then askLLMLoop llm maxRetries (attempt + 1)
      else .raisedAPI m
    | .exc m => .raisedExc m
  else .fellThrough
termination_by maxRetries - attempt
decreasing_by all_goals omega

/-- One source citation from `_format_sources` (rag_engine.py, lines
94-119). -/
structure Source where
  user : String
  timestamp : String
  channel : String
  preview : String
  score : ℚ
deriving DecidableEq

def formatSources (results : List SearchHit) (max_sources : ℕ) : List Source :=
  (results.take max_sources).map (fun r =>
    { user := r.metadata.user.getD "Unknown"
      timestamp := r.metadata.formatted_time.getD "Unknown"
      channel := r.metadata.channel.getD "Unknown"
      preview := truncate_text r.document 150
      score := r.score })

/-- The dictionary `ask` returns; the `error` key is present only in the
degraded payloads. -/
structure AskResult where
  answer : String
  sources : List Source
  confidence : ℚ
  confidence_indicator : String
  error : Option String := none
deriving DecidableEq

/-- The fixed payload for an empty retrieval result. -/
def notFoundResult : AskResult :=
  { answer := "I couldn't find that information in the conversation history."
    sources := []
    confidence := 0
    confidence_indicator := format_confidence_indicator 0 }

/-- The payload returned from inside the loop when the rate-limit retry
budget is exhausted. -/
def rateLimitExhaustedResult : AskResult :=
  { answer := "⏸️ GitHub Models is currently rate-limited. This API has very strict free tier limits.\n\n💡 **Suggestions:**\n• Wait 2-3 minutes before trying again\n• Switch to OpenAI (set OPENAI_API_KEY in .env)\n• Upgrade to GitHub Models Enterprise"
    sources := []
    confidence := 0
    confidence_indicator := format_confidence_indicator 0
    error := some "rate_limit" }

/-- The payload of the outer `except RateLimitError` handler. -/
def outerRateLimitResult : AskResult :=
  { answer := "⏸️ I'm currently rate-limited by the AI service. Please wait a minute and try again."
    sources := []
    confidence := 0
    confidence_indicator := format_confidence_indicator 0
    error := some "rate_limit" }

/-- The payload of the outer `except Exception` handler; `error` carries
`str(e)`. -/
def genericErrorResult (msg : String) : AskResult :=
  { answer := "❌ I encountered an error while processing your question. Please try again in a moment."
    sources := []
    confidence := 0
    confidence_indicator := format_confidence_indicator 0
    error := some msg }

/-- `RAGEngine.ask` (rag_engine.py, lines 121-253).  Everything the `try`
body can raise is routed to the outer handlers (the search call raises no
`RateLimitError`, so only the generic handler is reachable from retrieval),
and every path produces a structured `AskResult` — `ask` is total. -/
def RAGEngine.ask (searchOutcome : Except String (List SearchHit))
    (llm : ℕ → LLMOutcome) : AskResult :=
  match searchOutcome with
  | .error m => genericErrorResult m
  | .ok results =>
    if results.isEmpty then notFoundResult
    else
      match askLLMLoop llm 3 0 with
      | .answered a =>
        let distances := results.map SearchHit.score
        let confidence := calculate_confidence distances results.length
        { answer := String.mk (pyStrip a.data)
          sources := formatSources results 5
          confidence := confidence
          confidence_indicator := format_confidence_indicator confidence }
      | .returnedRateLimit => rateLimitExhaustedResult
      | .raisedAPI m => genericErrorResult m
      | .raisedExc m => genericErrorResult m
      | .fellThrough => genericErrorResult "name 'answer' is not defined"

/-! ## Bridging lemmas -/

lemma pyMin_eq_min (a b : ℚ) : pyMin a b = min a b := by
  unfold pyMin
  rcases lt_or_le b a with h | h
  · rw [if_pos h, min_eq_right h.le]
  · rw [if_neg (not_lt.mpr h), min_eq_left h]

lemma pyMax_eq_max (a b : ℚ) : pyMax a b = max a b := by
  unfold pyMax
  rcases lt_or_le a b with h | h
  · rw [if_pos h, max_eq_right h.le]
  · rw [if_neg (not_lt.mpr h), max_eq_left h]

lemma listContainsSub_iff (hay needle : List Char) :
    listContainsSub hay needle = true ↔ needle <:+: hay := by
  induction hay with
  | nil =>
    simp [listContainsSub, List.infix_nil, List.isEmpty_iff]
  | cons c t ih =>
    simp only [listContainsSub, Bool.or_eq_true, List.infix_cons_iff, ih,
      List.isPrefixOf_iff_prefix]

/-! ## C5: the confidence formula -/

/-- C5: for every non-empty distance list and positive result count, the
confidence equals `clamp(1 − distances[0]/10, 0, 1)`, multiplied by `1.2`
and re-clamped to `1` exactly when at least 3 distances exist and the first
3 are all `< 1.5`; in particular `[0.1, 0.2, 0.3]` yields `1` and `[9.9]`
yields `0.01`. -/
theorem confidence_formula (d : ℚ) (ds : List ℚ) (n : ℕ) (hn : 0 < n) :
    (calculate_confidence (d :: ds) n =
      if 3 ≤ (d :: ds).length ∧ ∀ x ∈ (d :: ds).take 3, x < 3/2 then
        min 1 (max 0 (min 1 (1 - d / 10)) * (6/5))
      else max 0 (min 1 (1 - d / 10)))
    ∧ calculate_confidence [1/10, 2/10, 3/10] 3 = 1
    ∧ calculate_confidence [99/10] 1 = 1/100 := by
  refine ⟨?_, ?_, ?_⟩
  · have hn' : ¬ n = 0 := Nat.pos_iff_ne_zero.mp hn
    simp only [calculate_confidence, if_neg hn', pyMin_eq_min, pyMax_eq_max]
  · norm_num [calculate_confidence, pyMin, pyMax]
  · norm_num [calculate_confidence, pyMin, pyMax]

/-- Witness for `confidence_formula` at `distances = [9.9]`, `n = 1`. -/
theorem confidence_formula_witness :
    calculate_confidence [99/10] 1 = 1/100 :=
  (confidence_formula (99/10) [] 1 (by decide)).2.2

/-! ## C6: building from zero chunks -/

/-- C6 counterexample: `create_index` on an empty chunk list does not fail
with any error — it logs a warning and returns with the store untouched (the
index is still absent).  There is no `EmptyInputError` anywhere in the
sources. -/
theorem create_index_empty_cex :
    VectorStore.create_index {} [] [] = ({} : VectorStore) := rfl

/-- C6 amended: given zero chunks the build is a silent no-op — the store is
returned unchanged and no exception is raised; a non-empty chunk list builds
the index. -/
theorem create_index_empty_noop (vs : VectorStore) (vecs : List ℚ) :
    vs.create_index [] vecs = vs
    ∧ ∀ documents, documents ≠ [] → (vs.create_index documents vecs).index = some vecs := by
  refine ⟨rfl, ?_⟩
  intro documents hd
  unfold VectorStore.create_index
  rw [if_neg (by simpa [List.isEmpty_iff] using hd)]

/-- Witness for `create_index_empty_noop`. -/
theorem create_index_empty_noop_witness :
    VectorStore.create_index {} [] [] = ({} : VectorStore)
    ∧ (VectorStore.create_index {} [("chunk text", {})] [5]).index = some [5] :=
  ⟨(create_index_empty_noop {} []).1,
   (create_index_empty_noop {} [5]).2 [("chunk text", {})] (by decide)⟩

/-! ## C7: search input validation -/

/-- A store with a one-vector index, as left by a successful build. -/
def builtVS : VectorStore :=
  { index := some [0], documents := ["some document"], metadata := [{}] }

/-- C7 counterexample: a blank query on a built index does not fail with any
error — `search` returns the empty result list (`return []` after the
warning log), so the `EmptyQueryError` half of the claim does not hold. -/
theorem search_blank_query_cex :
    builtVS.search "   " 5 none = Except.ok [] := rfl

/-- C7 amended: calling `search` before any index was built or restored
raises (`ValueError("No index exists")`, the `IndexNotBuiltError` of the
spec); a blank query on a built index instead returns the empty list without
raising. -/
theorem search_validation (vs : VectorStore) (query : String) (k : ℕ)
    (channel_filter : Option String) (dists : List ℚ) :
    (vs.index = none → vs.search query k channel_filter = .error .noIndex)
    ∧ (vs.index = some dists → pyStrip query.data = [] →
        vs.search query k channel_filter = .ok []) := by
  constructor
  · intro h
    unfold VectorStore.search
    rw [h]
  · intro h hq
    unfold VectorStore.search
    rw [h]
    simp [hq]

/-- Witness for `search_validation`: a store with no index, and a built store
with a whitespace-only query. -/
theorem search_validation_witness :
    (({} : VectorStore).search "anything" 5 none = .error .noIndex)
    ∧ builtVS.search " " 5 none = .ok [] :=
  ⟨(search_validation {} "anything" 5 none []).1 rfl,
   (search_validation builtVS " " 5 none [0]).2 rfl (by decide)⟩

/-! ## C8: restoring a persisted index -/

/-- C8 counterexample: restoring with a saved dimension (999) different from
the configured one (384) succeeds — `load_index` never reads the saved
dimension, so no `DimensionMismatchError` is possible.  The saved model name
matches, so no warning is emitted either. -/
theorem load_index_dimension_ignored_cex :
    ({} : VectorStore).load_index (some [1])
      (some { documents := ["d"], metadata := [{}],
              model_name := some "sentence-transformers/all-MiniLM-L6-v2",
              dimension := some 999 }) =
    Except.ok ({ index := some [1], documents := ["d"], metadata := [{}] }, false) := rfl

/-- C8 amended: both saved artifacts must exist or the load fails with the
matching not-found error (the index file is checked first); when both exist
the load always succeeds: a saved-versus-configured model-identifier mismatch
only sets the warning flag and the index loads anyway, and the saved
dimension is never inspected, so a dimension mismatch is not detected. -/
theorem load_index_behaviour (vs : VectorStore) (vecs : List ℚ) (data : DocsFile) :
    (∀ fsDocs, vs.load_index none fsDocs = .error .indexFileNotFound)
    ∧ vs.load_index (some vecs) none = .error .documentsFileNotFound
    ∧ vs.load_index (some vecs) (some data) =
        .ok ({ vs with index := some vecs
                       documents := data.documents
                       metadata := data.metadata },
             decide (¬ data.model_name.getD vs.model_name = vs.model_name)) :=
  ⟨fun _ => rfl, rfl, rfl⟩

/-! ## C9: retry wrapper behaviour -/

/-- C9: under `max_retries = 3`, a wrapped function that fails with
retryable exceptions on attempts 0 and 1 and succeeds on attempt 2 returns
the success value, and the `on_retry` observer fires exactly twice, receiving
the failure and the 0-indexed attempt number before each sleep; a function
whose three attempts all fail retryably re-raises the last observed
exception (the observer still fires only twice — never on the final
attempt). -/
theorem retry_twice_then_success (α ε : Type) (o₁ o₂ : ℕ → FnOutcome α ε)
    (v : α) (e1 e2 f1 f2 f3 : ε) :
    (o₁ 0 = .retryable e1 → o₁ 1 = .retryable e2 → o₁ 2 = .ok v →
      retryRun 3 o₁ = (.success v, [(e1, 0), (e2, 1)]))
    ∧ (o₂ 0 = .retryable f1 → o₂ 1 = .retryable f2 → o₂ 2 = .retryable f3 →
      retryRun 3 o₂ = (.raised f3, [(f1, 0), (f2, 1)])) := by
  constructor
  · intro h0 h1 h2
    simp [retryRun, retryLoop, h0, h1, h2]
  · intro h0 h1 h2
    simp [retryRun, retryLoop, h0, h1, h2]

/-- A schedule that fails retryably twice, then succeeds. -/
def twoFailSchedule : ℕ → FnOutcome ℕ String := fun n =>
  if n = 0 then .retryable "boom0" else if n = 1 then .retryable "boom1" else .ok 42

/-- A schedule whose every attempt fails retryably. -/
def allFailSchedule : ℕ → FnOutcome ℕ String := fun n =>
  if n = 0 then .retryable "a" else if n = 1 then .retryable "b" else .retryable "c"

/-- Witness for `retry_twice_then_success` on concrete outcome schedules. -/
theorem retry_twice_then_success_witness :
    retryRun 3 twoFailSchedule = (RetryResult.success 42, [("boom0", 0), ("boom1", 1)])
    ∧ retryRun 3 allFailSchedule = (RetryResult.raised "c", [("a", 0), ("b", 1)]) :=
  ⟨(retry_twice_then_success ℕ String twoFailSchedule allFailSchedule 42
      "boom0" "boom1" "a" "b" "c").1 rfl rfl rfl,
   (retry_twice_then_success ℕ String twoFailSchedule allFailSchedule 42
      "boom0" "boom1" "a" "b" "c").2 rfl rfl rfl⟩

/-! ## C3: the circuit breaker state machine -/

/-- C3: the circuit breaker starts closed with a zero counter; in the closed
state each monitored failure increments the counter, records the failure
time, and opens the breaker exactly when the counter reaches the threshold;
while open and within the recovery timeout every call is rejected with the
service-unavailable failure without invoking the wrapped function (the state
is untouched, whatever the call would have done); once the timeout elapses
the call goes through as the half-open trial — a successful trial resets the
counter and closes the breaker, a failed trial (the counter stands at or
above the threshold in any reachable open state) re-opens the breaker and
resets the recovery timer. -/
theorem circuit_breaker_machine (ft : ℕ) (rt : ℚ) (cb : CircuitBreaker)
    (now t : ℚ) (v : ℕ) (e : String) (o : CallOutcome ℕ String) :
    ((CircuitBreaker.init ft rt).state = .closed
      ∧ (CircuitBreaker.init ft rt).failure_count = 0
      ∧ (CircuitBreaker.init ft rt).last_failure_time = none)
    ∧ (cb.state = .closed →
        cb.call now (.failExpected e : CallOutcome ℕ String) =
          (if cb.failure_threshold ≤ cb.failure_count + 1 then
            ({ cb with failure_count := cb.failure_count + 1
                       last_failure_time := some now
                       state := .opened }, .raisedExpected e)
          else
            ({ cb with failure_count := cb.failure_count + 1
                       last_failure_time := some now }, .raisedExpected e)))
    ∧ (cb.state = .opened → cb.last_failure_time = some t →
        now - t < cb.recovery_timeout →
        cb.call now o = (cb, .rejectedOpen))
    ∧ (cb.state = .opened → cb.last_failure_time = some t →
        cb.recovery_timeout ≤ now - t →
        cb.call now (.ok v : CallOutcome ℕ String) =
          ({ cb with state := .closed, failure_count := 0 }, .value v))
    ∧ (cb.state = .opened → cb.last_failure_time = some t →
        cb.recovery_timeout ≤ now - t →
        cb.failure_threshold ≤ cb.failure_count →
        cb.call now (.failExpected e : CallOutcome ℕ String) =
          ({ cb with state := .opened
                     failure_count := cb.failure_count + 1
                     last_failure_time := some now }, .raisedExpected e)) := by
  refine ⟨⟨rfl, rfl, rfl⟩, ?_, ?_, ?_, ?_⟩
  · intro hc
    simp [CircuitBreaker.call, hc]
  · intro ho hlt hlate
    simp [CircuitBreaker.call, ho, hlt, not_le.mpr hlate]
  · intro ho hlt helapsed
    simp [CircuitBreaker.call, ho, hlt, helapsed]
  · intro ho hlt helapsed hcount
    simp [CircuitBreaker.call, ho, hlt, helapsed, Nat.le_succ_of_le hcount]

/-- A fresh closed breaker with `failure_threshold = 2`,
`recovery_timeout = 60`. -/
def cbClosed : CircuitBreaker :=
  { failure_threshold := 2, recovery_timeout := 60, failure_count := 0
    last_failure_time := none, state := .closed }

/-- A breaker that tripped at time 0 with the threshold reached. -/
def cbOpen : CircuitBreaker :=
  { failure_threshold := 2, recovery_timeout := 60, failure_count := 2
    last_failure_time := some 0, state := .opened }

/-- Witness for `circuit_breaker_machine`: a fresh breaker is closed; a
closed breaker counts a monitored failure; an open breaker rejects a call at
time 0 and lets the trial through at time 60, closing on success and
re-opening (with the timer reset) on failure. -/
theorem circuit_breaker_machine_witness :
    (CircuitBreaker.init 2 60).state = CBState.closed
    ∧ cbClosed.call 5 (.failExpected "boom" : CallOutcome ℕ String) =
        ({ cbClosed with failure_count := 1, last_failure_time := some 5 },
          .raisedExpected "boom")
    ∧ cbOpen.call 0 (.ok 7 : CallOutcome ℕ String) = (cbOpen, .rejectedOpen)
    ∧ cbOpen.call 60 (.ok 7 : CallOutcome ℕ String) =
        ({ cbOpen with state := .closed, failure_count := 0 }, .value 7)
    ∧ cbOpen.call 60 (.failExpected "boom" : CallOutcome ℕ String) =
        ({ cbOpen with state := .opened, failure_count := 3
                       last_failure_time := some 60 }, .raisedExpected "boom") := by
  refine ⟨(circuit_breaker_machine 2 60 cbClosed 0 0 7 "boom" (.ok 7)).1.1, ?_, ?_, ?_, ?_⟩
  · have h := (circuit_breaker_machine 2 60 cbClosed 5 0 7 "boom" (.ok 7)).2.1 rfl
    simpa [cbClosed] using h
  · exact (circuit_breaker_machine 2 60 cbOpen 0 0 7 "boom" (.ok 7)).2.2.1 rfl rfl
      (by simp [cbOpen])
  · exact (circuit_breaker_machine 2 60 cbOpen 60 0 7 "boom" (.ok 7)).2.2.2.1 rfl rfl
      (by simp [cbOpen])
  · have h := (circuit_breaker_machine 2 60 cbOpen 60 0 7 "boom" (.ok 7)).2.2.2.2 rfl rfl
      (by simp [cbOpen]) (by decide)
    simpa [cbOpen] using h

/-! ## C2: the orchestrator's outward contract -/

/-- C2: `ask` is a total function into structured results — every failure
reachable from a well-formed question (a retrieval exception, exhausted
rate-limit retries, an `APIError` surviving the retry budget, any other
exception from the completion call) yields a payload with the `answer`,
`sources`, `confidence` and `confidence_indicator` fields rather than an
exception; the degraded payloads carry confidence `0`, an `error` tag, and
distinct texts for the rate-limit and generic cases, and on every path the
indicator is computed from the returned confidence. -/
theorem ask_structured_never_raises (sr : Except String (List SearchHit))
    (llm : ℕ → LLMOutcome) (m m0 m1 m2 : String) (rs : List SearchHit) :
    ((RAGEngine.ask sr llm).confidence_indicator
        = format_confidence_indicator (RAGEngine.ask sr llm).confidence)
    ∧ (sr = .error m → RAGEngine.ask sr llm = genericErrorResult m)
    ∧ (sr = .ok rs → rs ≠ [] → llm 0 = .rateLimited → llm 1 = .rateLimited →
        llm 2 = .rateLimited → RAGEngine.ask sr llm = rateLimitExhaustedResult)
    ∧ (sr = .ok rs → rs ≠ [] →
        (llm 0 = .rateLimited ∨ llm 0 = .apiErr m0) →
        (llm 1 = .rateLimited ∨ llm 1 = .apiErr m1) →
        llm 2 = .apiErr m2 →
        RAGEngine.ask sr llm = genericErrorResult m2)
    ∧ (sr = .ok rs → rs ≠ [] → llm 0 = .exc m →
        RAGEngine.ask sr llm = genericErrorResult m)
    ∧ rateLimitExhaustedResult.answer ≠ (genericErrorResult m).answer
    ∧ rateLimitExhaustedResult.confidence = 0
    ∧ (genericErrorResult m).confidence = 0
    ∧ rateLimitExhaustedResult.error = some "rate_limit" := by
  refine ⟨?_, ?_, ?_, ?_, ?_,
    by simp [rateLimitExhaustedResult, genericErrorResult], rfl, rfl, rfl⟩
  · rcases sr with m' | rs'
    · rfl
    · by_cases h : rs'.isEmpty
      · simp [RAGEngine.ask, h, notFoundResult]
      · cases hE : askLLMLoop llm 3 0 <;>
          simp [RAGEngine.ask, h, hE, notFoundResult, rateLimitExhaustedResult,
            genericErrorResult]
  · intro hsr
    subst hsr
    rfl
  · intro hsr hne h0 h1 h2
    subst hsr
    have hempty : rs.isEmpty = false := by simpa [List.isEmpty_iff] using hne
    have hloop : askLLMLoop llm 3 0 = .returnedRateLimit := by
      simp [askLLMLoop, h0, h1, h2]
    simp [RAGEngine.ask, hempty, hloop]
  · intro hsr hne h0 h1 h2
    subst hsr
    have hempty : rs.isEmpty = false := by simpa [List.isEmpty_iff] using hne
    have hloop : askLLMLoop llm 3 0 = .raisedAPI m2 := by
      rcases h0 with h0 | h0 <;> rcases h1 with h1 | h1 <;>
        simp [askLLMLoop, h0, h1, h2]
    simp [RAGEngine.ask, hempty, hloop]
  · intro hsr hne h0
    subst hsr
    have hempty : rs.isEmpty = false := by simpa [List.isEmpty_iff] using hne
    have hloop : askLLMLoop llm 3 0 = .raisedExc m := by
      simp [askLLMLoop, h0]
    simp [RAGEngine.ask, hempty, hloop]

/-- One retrieved hit, for exercising the degraded paths. -/
def hitW : SearchHit := { document := "some chunk", metadata := {}, score := 2, rank := 1 }

/-- Witness for `ask_structured_never_raises`: a retrieval failure, three
rate-limited attempts, and an immediate unexpected exception all produce the
structured degraded payloads. -/
theorem ask_structured_never_raises_witness :
    RAGEngine.ask (.error "db down") (fun _ => LLMOutcome.ok "hi") =
      genericErrorResult "db down"
    ∧ RAGEngine.ask (.ok [hitW]) (fun _ => LLMOutcome.rateLimited) =
      rateLimitExhaustedResult
    ∧ RAGEngine.ask (.ok [hitW]) (fun _ => LLMOutcome.exc "oops") =
      genericErrorResult "oops" :=
  ⟨(ask_structured_never_raises (.error "db down") (fun _ => LLMOutcome.ok "hi")
      "db down" "" "" "" []).2.1 rfl,
   (ask_structured_never_raises (.ok [hitW]) (fun _ => LLMOutcome.rateLimited)
      "" "" "" "" [hitW]).2.2.1 rfl (by simp) rfl rfl rfl,
   (ask_structured_never_raises (.ok [hitW]) (fun _ => LLMOutcome.exc "oops")
      "oops" "" "" "" [hitW]).2.2.2.2.1 rfl (by simp) rfl⟩

/-! ## C4: channel-filtered search -/

lemma formatLoop_filter (vs : VectorStore) (k : ℕ) (cf : Option String) :
    ∀ (cands : List (ℚ × ℕ)) (acc : List SearchHit),
      (∀ hit ∈ acc, passesFilter cf hit.metadata = true) →
      ∀ hit ∈ formatLoop vs k cf cands acc, passesFilter cf hit.metadata = true := by
  intro cands
  induction cands with
  | nil => intro acc hacc; simpa [formatLoop] using hacc
  | cons c rest ih =>
    obtain ⟨d, idx⟩ := c
    intro acc hacc
    simp only [formatLoop]
    split
    · split
      · have hpass : passesFilter cf (vs.metadata.getD idx {}) = true := by assumption
        have hacc2 : ∀ hit ∈ acc ++
            [{ document := vs.documents.get ⟨idx, by assumption⟩
               metadata := vs.metadata.getD idx {}
               score := d, rank := acc.length + 1 : SearchHit }],
            passesFilter cf hit.metadata = true := by
          intro hit hmem
          rcases List.mem_append.mp hmem with hmem | hmem
          · exact hacc hit hmem
          · rw [List.mem_singleton.mp hmem]
            exact hpass
        split
        · exact hacc2
        · exact ih _ hacc2
      · exact ih acc hacc
    · exact ih acc hacc

lemma formatLoop_length (vs : VectorStore) (k : ℕ) (cf : Option String) :
    ∀ (cands : List (ℚ × ℕ)) (acc : List SearchHit), acc.length < k →
      (formatLoop vs k cf cands acc).length ≤ k := by
  intro cands
  induction cands with
  | nil => intro acc hacc; simpa [formatLoop] using hacc.le
  | cons c rest ih =>
    obtain ⟨d, idx⟩ := c
    intro acc hacc
    simp only [formatLoop]
    split
    · split
      · split
        · simpa using hacc
        · rename_i h2
          exact ih _ (not_le.mp h2)
      · exact ih acc hacc
    · exact ih acc hacc

lemma formatLoop_ranks (vs : VectorStore) (k : ℕ) (cf : Option String) :
    ∀ (cands : List (ℚ × ℕ)) (acc : List SearchHit),
      acc.map SearchHit.rank = List.range' 1 acc.length →
      (formatLoop vs k cf cands acc).map SearchHit.rank
        = List.range' 1 (formatLoop vs k cf cands acc).length := by
  intro cands
  induction cands with
  | nil => intro acc hacc; simpa [formatLoop] using hacc
  | cons c rest ih =>
    obtain ⟨d, idx⟩ := c
    intro acc hacc
    simp only [formatLoop]
    split
    · split
      · have hacc2 : (acc ++
            [{ document := vs.documents.get ⟨idx, by assumption⟩
               metadata := vs.metadata.getD idx {}
               score := d, rank := acc.length + 1 : SearchHit }]).map SearchHit.rank
            = List.range' 1 (acc ++
            [{ document := vs.documents.get ⟨idx, by assumption⟩
               metadata := vs.metadata.getD idx {}
               score := d, rank := acc.length + 1 : SearchHit }]).length := by
          simp [hacc, List.range'_concat, Nat.add_comm]
        split
        · exact hacc2
        · exact ih _ hacc2
      · exact ih acc hacc
    · exact ih acc hacc

/-- C4: for a built index, a non-blank query, `k ≥ 1` and a non-empty channel
filter, every returned hit's channel name case-insensitively contains the
filter string, at most `k` hits come back (possibly fewer), and the ranks are
assigned post-filter as `1, 2, …`.  The over-fetch of `3 × k` candidates
(capped at the index size) and the early stop at `k` survivors are the
definition of `VectorStore.search` itself. -/
theorem search_channel_filter (vs : VectorStore) (dists : List ℚ) (query : String)
    (k : ℕ) (f : String) (results : List SearchHit)
    (hidx : vs.index = some dists) (hq : ¬ pyStrip query.data = [])
    (hk : 1 ≤ k) (hf : ¬ f = "")
    (hres : vs.search query k (some f) = .ok results) :
    (∀ hit ∈ results, pyLower f.data <:+: pyLower (hit.metadata.channel_name.getD "").data)
    ∧ results.length ≤ k
    ∧ results.map SearchHit.rank = List.range' 1 results.length := by
  simp only [VectorStore.search, hidx, if_neg hq, Except.ok.injEq] at hres
  subst hres
  refine ⟨?_, ?_, ?_⟩
  · intro hit hmem
    have h := formatLoop_filter vs k (some f) _ [] (by simp) hit hmem
    simp only [passesFilter, if_neg hf] at h
    exact (listContainsSub_iff _ _).mp h
  · exact formatLoop_length vs k (some f) _ [] (by simpa using hk)
  · exact formatLoop_ranks vs k (some f) _ [] (by simp)

/-- A three-chunk store: distances 3, 1, 2 to the query, channels
`general`, `Random`, `general-2`. -/
def vsW : VectorStore :=
  { index := some [3, 1, 2]
    documents := ["a", "b", "c"]
    metadata := [{ channel_name := some "general" }, { channel_name := some "Random" },
                 { channel_name := some "general-2" }] }

/-- The hits `search "query" 2 (some "gen")` returns on `vsW`: the nearest
candidate `Random` is filtered out, the survivors are ranked 1 and 2. -/
def resultsW : List SearchHit :=
  [{ document := "c", metadata := { channel_name := some "general-2" }, score := 2, rank := 1 },
   { document := "a", metadata := { channel_name := some "general" }, score := 3, rank := 2 }]

/-- Witness for `search_channel_filter` on `vsW`. -/
theorem search_channel_filter_witness :
    (∀ hit ∈ resultsW, pyLower "gen".data <:+:
        pyLower (hit.metadata.channel_name.getD "").data)
    ∧ resultsW.length ≤ 2
    ∧ resultsW.map SearchHit.rank = List.range' 1 resultsW.length :=
  search_channel_filter vsW [3, 1, 2] "query" 2 "gen" resultsW rfl (by decide)
    (by decide) (by decide) rfl

/-! ## Grouping lemmas for `create_documents` -/

lemma lookupGroup_updateKey_self (gs : List (GroupKey × List Msg)) (k : GroupKey)
    (f : List Msg → List Msg) :
    lookupGroup k (updateKey gs k f) = some (f ((lookupGroup k gs).getD [])) := by
  induction gs with
  | nil => simp [updateKey, lookupGroup]
  | cons g rest ih =>
    obtain ⟨k0, l⟩ := g
    by_cases h : k0 = k
    · subst h
      simp [updateKey, lookupGroup]
    · simp [updateKey, lookupGroup, h, ih]

lemma lookupGroup_updateKey_ne (gs : List (GroupKey × List Msg)) (k k' : GroupKey)
    (f : List Msg → List Msg) (h : ¬ k' = k) :
    lookupGroup k' (updateKey gs k f) = lookupGroup k' gs := by
  have h' : ¬ k = k' := fun he => h he.symm
  induction gs with
  | nil => simp [updateKey, lookupGroup, h']
  | cons g rest ih =>
    obtain ⟨k0, l⟩ := g
    by_cases h0 : k0 = k
    · subst h0
      simp [updateKey, lookupGroup, h']
    · by_cases h1 : k0 = k'
      · subst h1
        simp [updateKey, lookupGroup, h0]
      · simp [updateKey, lookupGroup, h0, h1, ih]

lemma keys_updateKey (gs : List (GroupKey × List Msg)) (k : GroupKey)
    (f : List Msg → List Msg) :
    (updateKey gs k f).map Prod.fst =
      if k ∈ gs.map Prod.fst then gs.map Prod.fst else gs.map Prod.fst ++ [k] := by
  induction gs with
  | nil => simp [updateKey]
  | cons g rest ih =>
    obtain ⟨k0, l⟩ := g
    by_cases h : k0 = k
    · subst h
      simp [updateKey]
    · have h' : ¬ k = k0 := fun he => h he.symm
      simp only [updateKey, if_neg h, List.map_cons, ih]
      by_cases hmem : k ∈ rest.map Prod.fst
      · simp [hmem, h']
      · simp [hmem, h']

lemma nodupKeys_updateKey (gs : List (GroupKey × List Msg)) (k : GroupKey)
    (f : List Msg → List Msg) (h : (gs.map Prod.fst).Nodup) :
    ((updateKey gs k f).map Prod.fst).Nodup := by
  rw [keys_updateKey]
  split
  · exact h
  · rename_i hmem
    simp [List.nodup_append, h, hmem]

lemma nodupKeys_groupLoop : ∀ (ms : List Msg) (gs : List (GroupKey × List Msg))
    (ss : List Msg), (gs.map Prod.fst).Nodup →
    (((groupLoop ms gs ss).1).map Prod.fst).Nodup := by
  intro ms
  induction ms with
  | nil => intro gs ss h; simpa [groupLoop] using h
  | cons m rest ih =>
    intro gs ss h
    by_cases h1 : m.is_thread_reply
    · simp only [groupLoop, h1, if_true]
      exact ih _ _ (nodupKeys_updateKey gs m.parent_ts _ h)
    · by_cases h2 : 0 < m.reply_count
      · simp only [groupLoop, h1, h2, if_true, if_false, Bool.false_eq_true]
        exact ih _ _ (nodupKeys_updateKey gs (parentKeyOf m) _ h)
      · simp only [groupLoop, h1, h2, if_false, Bool.false_eq_true]
        exact ih _ _ h

lemma lookupGroup_groupLoop : ∀ (ms : List Msg) (gs : List (GroupKey × List Msg))
    (ss : List Msg) (k : GroupKey),
    lookupGroup k ((groupLoop ms gs ss).1)
      = (ms.filter (fun m => contribKey m = some k)).foldl applyContrib (lookupGroup k gs) := by
  intro ms
  induction ms with
  | nil => intro gs ss k; simp [groupLoop]
  | cons m rest ih =>
    intro gs ss k
    by_cases h1 : m.is_thread_reply
    · by_cases hk : m.parent_ts = k
      · subst hk
        have hc : contribKey m = some m.parent_ts := by simp [contribKey, h1]
        simp only [groupLoop, h1, if_true]
        rw [ih, List.filter_cons, if_pos (by simp [hc]), List.foldl_cons,
          lookupGroup_updateKey_self]
        congr 1
        simp [applyContrib, h1]
      · have hc : ¬ contribKey m = some k := by simp [contribKey, h1, hk]
        simp only [groupLoop, h1, if_true]
        rw [ih, List.filter_cons, if_neg (by simp [hc]),
          lookupGroup_updateKey_ne gs m.parent_ts k _ (fun he => hk he.symm)]
    · by_cases h2 : 0 < m.reply_count
      · by_cases hk : parentKeyOf m = k
        · subst hk
          have hc : contribKey m = some (parentKeyOf m) := by simp [contribKey, h1, h2]
          simp only [groupLoop, h1, h2, if_true, if_false, Bool.false_eq_true]
          rw [ih, List.filter_cons, if_pos (by simp [hc]), List.foldl_cons,
            lookupGroup_updateKey_self]
          congr 1
          simp [applyContrib, h1]
        · have hc : ¬ contribKey m = some k := by simp [contribKey, h1, h2, hk]
          simp only [groupLoop, h1, h2, if_true, if_false, Bool.false_eq_true]
          rw [ih, List.filter_cons, if_neg (by simp [hc]),
            lookupGroup_updateKey_ne gs (parentKeyOf m) k _ (fun he => hk he.symm)]
      · have hc : ¬ contribKey m = some k := by simp [contribKey, h1, h2]
        simp only [groupLoop, h1, h2, if_false, Bool.false_eq_true]
        rw [ih, List.filter_cons, if_neg (by simp [hc])]

lemma foldl_applyContrib_replies : ∀ (l : List Msg) (o : Option (List Msg)),
    (∀ m ∈ l, m.is_thread_reply = true) → l ≠ [] →
    l.foldl applyContrib o = some (o.getD [] ++ l) := by
  intro l
  induction l with
  | nil => intro o _ h; exact absurd rfl h
  | cons m rest ih =>
    intro o hall _
    have hm : m.is_thread_reply = true := hall m (by simp)
    by_cases hrest : rest = []
    · subst hrest
      simp [applyContrib, hm]
    · rw [List.foldl_cons, ih _ (fun x hx => hall x (by simp [hx])) hrest]
      simp [applyContrib, hm]

lemma lookupGroup_mem : ∀ (gs : List (GroupKey × List Msg)) (k : GroupKey)
    (l : List Msg), lookupGroup k gs = some l → (k, l) ∈ gs := by
  intro gs
  induction gs with
  | nil => intro k l h; cases h
  | cons g rest ih =>
    obtain ⟨k0, l0⟩ := g
    intro k l h
    by_cases h0 : k0 = k
    · subst h0
      simp only [lookupGroup, if_true, eq_self_iff_true, Option.some.injEq] at h
      subst h
      exact List.mem_cons_self _ _
    · simp only [lookupGroup, if_neg h0] at h
      exact List.mem_cons_of_mem _ (ih k l h)

lemma filterMap_reply_parts (l : List Msg)
    (h : ∀ m ∈ l, ¬ clean_slack_text m.text = "") :
    l.filterMap (fun m =>
      if clean_slack_text m.text = "" then none
      else some ("\n**Reply by " ++ userNameOf m ++ ":**\n" ++ clean_slack_text m.text))
    = l.map (fun m => "\n**Reply by " ++ userNameOf m ++ ":**\n" ++ clean_slack_text m.text) := by
  induction l with
  | nil => rfl
  | cons m rest ih =>
    simp only [List.filterMap_cons, if_neg (h m (by simp)), List.map_cons]
    rw [ih (fun x hx => h x (by simp [hx]))]

lemma renderGroup_all_clean (parent : Msg) (replies : List Msg)
    (hp : ¬ clean_slack_text parent.text = "")
    (hr : ∀ m ∈ replies, ¬ clean_slack_text m.text = "") :
    renderGroup (parent :: replies) = some
      { page_content := String.intercalate "\n"
          (("**Thread started by " ++ userNameOf parent ++ ":**\n" ++
              clean_slack_text parent.text) ::
            replies.map (fun m =>
              "\n**Reply by " ++ userNameOf m ++ ":**\n" ++ clean_slack_text m.text))
        metadata := { extract_message_metadata parent (userNameOf parent) with
                      is_thread := true
                      reply_count := some replies.length } } := by
  simp only [renderGroup, if_neg hp, filterMap_reply_parts replies hr,
    List.length_cons, Nat.add_sub_cancel]

/-! ## C10: orphan replies form one thread document -/

/-- C10: when the only contributors to group key `p` are reply-flagged
messages `r1 :: rs` (their parent was never ingested) whose cleaned texts
are non-empty, the grouping pass collects them — in arrival order — into the
single group keyed `p` (the group keys are duplicate-free, so no other group
holds them), and `create_documents` emits for that group exactly the one
compound thread document whose `Thread started by` header comes from the
first reply, whose metadata is extracted from the first reply with
`is_thread = true` and `reply_count = (rs.length + 1) - 1`, and which is in
the returned document list — the orphan replies are neither dropped nor
attached to any other unit. -/
theorem orphan_replies_single_thread_doc (ms : List Msg) (p : GroupKey)
    (r1 : Msg) (rs : List Msg)
    (hfilter : ms.filter (fun m => contribKey m = some p) = r1 :: rs)
    (hreplies : ∀ m ∈ r1 :: rs, m.is_thread_reply = true)
    (hclean : ∀ m ∈ r1 :: rs, ¬ clean_slack_text m.text = "") :
    lookupGroup p ((groupLoop ms [] []).1) = some (r1 :: rs)
    ∧ (((groupLoop ms [] []).1).map Prod.fst).Nodup
    ∧ renderGroup (r1 :: rs) = some
        { page_content := String.intercalate "\n"
            (("**Thread started by " ++ userNameOf r1 ++ ":**\n" ++
                clean_slack_text r1.text) ::
              rs.map (fun m =>
                "\n**Reply by " ++ userNameOf m ++ ":**\n" ++ clean_slack_text m.text))
          metadata := { extract_message_metadata r1 (userNameOf r1) with
                        is_thread := true
                        reply_count := some rs.length } }
    ∧ ∃ d, renderGroup (r1 :: rs) = some d ∧ d ∈ create_documents ms := by
  have hlook : lookupGroup p ((groupLoop ms [] []).1) = some (r1 :: rs) := by
    rw [lookupGroup_groupLoop ms [] [] p, hfilter,
      foldl_applyContrib_replies _ _ hreplies (by simp)]
    simp [lookupGroup]
  have hrender := renderGroup_all_clean r1 rs (hclean r1 (by simp))
    (fun m hm => hclean m (by simp [hm]))
  refine ⟨hlook, nodupKeys_groupLoop ms [] [] (by simp), hrender, ⟨_, hrender, ?_⟩⟩
  unfold create_documents
  refine List.mem_append_right _ (List.mem_filterMap.mpr ?_)
  exact ⟨(p, r1 :: rs), lookupGroup_mem _ _ _ hlook, hrender⟩

/-- An unrelated standalone message ingested before the orphan replies. -/
def strayMsg : Msg :=
  { text := "just a standalone message", user := some "U1", user_name := some "ann"
    ts := some "0.5", channel := some "C1" }

/-- First orphan reply (its parent `1.0` was never ingested). -/
def orphanReply1 : Msg :=
  { text := "first orphan reply here", user := some "U2", user_name := some "bob"
    ts := some "2.0", is_thread_reply := true, parent_ts := some "1.0"
    channel := some "C1" }

/-- Second orphan reply of the same never-ingested parent. -/
def orphanReply2 : Msg :=
  { text := "second orphan reply here", user := some "U3", user_name := some "carol"
    ts := some "3.0", is_thread_reply := true, parent_ts := some "1.0"
    channel := some "C1" }

/-- Witness for `orphan_replies_single_thread_doc`: two orphan replies and a
stray standalone message. -/
theorem orphan_replies_single_thread_doc_witness :
    lookupGroup (some "1.0")
        ((groupLoop [strayMsg, orphanReply1, orphanReply2] [] []).1)
      = some [orphanReply1, orphanReply2]
    ∧ (((groupLoop [strayMsg, orphanReply1, orphanReply2] [] []).1).map Prod.fst).Nodup :=
  ⟨(orphan_replies_single_thread_doc [strayMsg, orphanReply1, orphanReply2]
      (some "1.0") orphanReply1 [orphanReply2] (by decide) (by decide) (by decide)).1,
   (orphan_replies_single_thread_doc [strayMsg, orphanReply1, orphanReply2]
      (some "1.0") orphanReply1 [orphanReply2] (by decide) (by decide) (by decide)).2.1⟩

/-! ## C1: a parent with reply_count > 0 but no ingested replies -/

/-- The lone parent message: it reports two replies, none were ingested. -/
def mC1 : Msg :=
  { text := "hello team, this is the kickoff", user := some "U1"
    user_name := some "alice", ts := some "1700000000.000100", reply_count := 2
    channel := some "C1" }

/-- C1 counterexample: `create_documents` on the lone parent emits one
document, but it is thread-shaped, not standalone-shaped — the text carries
the `**Thread started by …:**` prefix (it differs from the plain cleaned
text) and the metadata sets `is_thread = true` (with `reply_count = 0`),
where the claim requires plain cleaned text with no thread formatting. -/
theorem parent_without_replies_cex :
    create_documents [mC1] = [{
        page_content := "**Thread started by alice:**\nhello team, this is the kickoff"
        metadata := { user := "alice", user_id := "U1"
                      timestamp := "1700000000.000100", channel := "C1"
                      thread_ts := "", message_type := "message", subtype := "normal"
                      is_thread := true, reply_count := some 0 } }]
    ∧ clean_slack_text mC1.text = "hello team, this is the kickoff" := by
  constructor
  · rfl
  · rfl

/-- C1 amended: a message with `reply_count > 0`, not itself a reply, whose
group receives no other contribution, still yields exactly one unit and is
not treated as invalid, and no replies are fabricated (`reply_count` metadata
is `0`) — but the unit is thread-shaped, not standalone-shaped: its text is
the cleaned text behind a `**Thread started by …:**` prefix and its metadata
carries `is_thread = true`. -/
theorem parent_without_replies_thread_shaped (ms : List Msg) (p : GroupKey) (m : Msg)
    (hfilter : ms.filter (fun x => contribKey x = some p) = [m])
    (hparent : m.is_thread_reply = false)
    (hclean : ¬ clean_slack_text m.text = "") :
    lookupGroup p ((groupLoop ms [] []).1) = some [m]
    ∧ (((groupLoop ms [] []).1).map Prod.fst).Nodup
    ∧ renderGroup [m] = some
        { page_content := "**Thread started by " ++ userNameOf m ++ ":**\n" ++
            clean_slack_text m.text
          metadata := { extract_message_metadata m (userNameOf m) with
                        is_thread := true, reply_count := some 0 } }
    ∧ ∃ d, renderGroup [m] = some d ∧ d ∈ create_documents ms := by
  have hlook : lookupGroup p ((groupLoop ms [] []).1) = some [m] := by
    rw [lookupGroup_groupLoop ms [] [] p, hfilter]
    simp [applyContrib, hparent, lookupGroup]
  have hrender : renderGroup [m] = some
      { page_content := "**Thread started by " ++ userNameOf m ++ ":**\n" ++
          clean_slack_text m.text
        metadata := { extract_message_metadata m (userNameOf m) with
                      is_thread := true, reply_count := some 0 } } := by
    have h := renderGroup_all_clean m [] hclean (by simp)
    simpa using h
  refine ⟨hlook, nodupKeys_groupLoop ms [] [] (by simp), hrender, ⟨_, hrender, ?_⟩⟩
  unfold create_documents
  refine List.mem_append_right _ (List.mem_filterMap.mpr ?_)
  exact ⟨(p, [m]), lookupGroup_mem _ _ _ hlook, hrender⟩

/-- Witness for `parent_without_replies_thread_shaped` on the lone parent
`mC1`. -/
theorem parent_without_replies_thread_shaped_witness :
    lookupGroup (some "1700000000.000100") ((groupLoop [mC1] [] []).1) = some [mC1]
    ∧ renderGroup [mC1] = some
        { page_content := "**Thread started by " ++ userNameOf mC1 ++ ":**\n" ++
            clean_slack_text mC1.text
          metadata := { extract_message_metadata mC1 (userNameOf mC1) with
                        is_thread := true, reply_count := some 0 } } :=
  ⟨(parent_without_replies_thread_shaped [mC1] (some "1700000000.000100") mC1
      (by decide) rfl (by decide)).1,
   (parent_without_replies_thread_shaped [mC1] (some "1700000000.000100") mC1
      (by decide) rfl (by decide)).2.2.1⟩
